import Mathlib

/-!
Verification development for the real-estate ROI dashboard
(`src/streamlit_app.py`).

The Python source is shallowly embedded below:
* the arithmetic of section "2) CALCULATIONS" becomes pure functions over `ℚ`
  (the source uses IEEE doubles; the rational model is the exact idealisation,
  and every concrete value checked here is also exact in doubles);
* the Python `f"..."` format specifiers `:,.0f`, `:.2f`, `:.1f` become the
  string formatters `fmtComma0`, `fmtTwoDec`, `fmtOneDec` (round half to even,
  as float formatting does);
* the FPDF document built by `create_pdf_with_charts` (lines 192-282) becomes
  a list of pages of layout elements, produced by a state-passing mirror of
  the FPDF calls made by the source;
* the resource/failure behaviour of `create_pdf_with_charts` (temporary PNG
  files, the `try/except OSError` cleanup) becomes an explicit run function
  with boolean failure injection points, one per fallible call in the source.
-/

namespace RoiApp

/-- The two user inputs (source lines 17-33): `purchase_price` and `rent_pct`. -/
structure Inputs where
  purchase_price : ℚ
  rent_pct : ℚ
deriving DecidableEq

/-- Source line 40: `rent_decimal = rent_pct / 100.0`. -/
def rent_decimal (i : Inputs) : ℚ := i.rent_pct / 100

/-- Source line 41: `annual_rent = purchase_price * rent_decimal`. -/
def annual_rent (i : Inputs) : ℚ := i.purchase_price * rent_decimal i

/-- Source line 42: `quarterly_rent = annual_rent / 4.0`. -/
def quarterly_rent (i : Inputs) : ℚ := annual_rent i / 4

/-- Source line 44: `annual_roi_pct = rent_pct`. -/
def annual_roi_pct (i : Inputs) : ℚ := i.rent_pct

/-- Source line 45: `quarterly_roi_pct = annual_roi_pct / 4.0`. -/
def quarterly_roi_pct (i : Inputs) : ℚ := annual_roi_pct i / 4

/-- Source line 47: `quarters = ["Q1", "Q2", "Q3", "Q4"]`. -/
def quarters : List String := ["Q1", "Q2", "Q3", "Q4"]

/-- Source line 48: `quarterly_values = [quarterly_rent] * 4`. -/
def quarterly_values (i : Inputs) : List ℚ := List.replicate 4 (quarterly_rent i)

/-- Source lines 49-52: the `df_quarters` data frame, one row per quarter. -/
def df_quarters (i : Inputs) : List (String × ℚ) := quarters.zip (quarterly_values i)

/-- Source lines 54-57 and 172-173: the two pie-chart values
`[purchase_price, annual_rent]`. -/
def pieValues (i : Inputs) : List ℚ := [i.purchase_price, annual_rent i]

/-!  Number formatting.

The float formatting of Python rounds half to even.  `roundHalfEven` is that
rounding on `ℚ`; the three formatters below mirror the f-string format
specifiers used by the source (`:,.0f`, `:.2f`, `:.1f`).  -/

/-- Round a rational to the nearest integer, ties to even (the rounding used
by Python float formatting). -/
def roundHalfEven (q : ℚ) : ℤ :=
  let f : ℤ := ⌊q⌋
  let r : ℚ := q - f
  if r < 1/2 then f
  else if 1/2 < r then f + 1
  else if f % 2 = 0 then f else f + 1

/-- The decimal digit characters. -/
def digitChar (d : ℕ) : Char :=
  if d = 0 then '0' else if d = 1 then '1' else if d = 2 then '2'
  else if d = 3 then '3' else if d = 4 then '4' else if d = 5 then '5'
  else if d = 6 then '6' else if d = 7 then '7' else if d = 8 then '8' else '9'

/-- Little-endian decimal digits of `n`, with explicit fuel (`fuel ≥ n`
suffices) so that the definition is structurally recursive. -/
def natDigitsAux : ℕ → ℕ → List Char
  | 0, _ => []
  | _ + 1, 0 => []
  | fuel + 1, n + 1 => digitChar ((n + 1) % 10) :: natDigitsAux fuel ((n + 1) / 10)

/-- Decimal string of a natural number. -/
def natStr (n : ℕ) : String :=
  if n = 0 then "0" else String.mk (natDigitsAux n n).reverse

/-- Insert a `','` after every three characters of a little-endian digit
list: the thousands separator of the `:,` format flag. -/
def commaGroupAux : List Char → List Char
  | a :: b :: c :: d :: rest => a :: b :: c :: ',' :: commaGroupAux (d :: rest)
  | l => l

/-- Python `f"{q:,.0f}"`: round to zero decimals, thousands separators. -/
def fmtComma0 (q : ℚ) : String :=
  let n := roundHalfEven q
  let digits := (natStr n.natAbs).data
  (if n < 0 then "-" else "") ++ String.mk (commaGroupAux digits.reverse).reverse

/-- Python `f"{q:.2f}"`: exactly two decimal places, rounding half to even. -/
def fmtTwoDec (q : ℚ) : String :=
  let n := roundHalfEven (q * 100)
  (if n < 0 then "-" else "") ++ natStr (n.natAbs / 100) ++ "." ++ natStr (n.natAbs % 100 / 10) ++ natStr (n.natAbs % 10)

/-- Python `f"{q:.1f}"`: exactly one decimal place, rounding half to even. -/
def fmtOneDec (q : ℚ) : String :=
  let n := roundHalfEven (q * 10)
  (if n < 0 then "-" else "") ++ natStr (n.natAbs / 10) ++ "." ++ natStr (n.natAbs % 10)

/-- Source line 177: the pie `autopct` lambda,
`lambda pct: f"{pct:.1f}%" if pct > 0 else ""`. -/
def autopct (pct : ℚ) : String := if pct > 0 then fmtOneDec pct ++ "%" else ""

/-- The percentage share the pie renderer hands to `autopct`:
`100 * v / total`.  When the total is `0` the float renderer produces a NaN
share, for which the test in the source `pct > 0` is false exactly as it is for
`0`; that case is modelled as `0`. -/
def pieShare (v total : ℚ) : ℚ := if total = 0 then 0 else 100 * v / total

/-- The percentage labels the pie chart renders for a list of slice values
(source lines 174-182). -/
def pieLabels (vals : List ℚ) : List String :=
  vals.map (fun v => autopct (pieShare v vals.sum))

/-!  The FPDF document model.

`create_pdf_with_charts` (source lines 127-293) drives an `FPDF` object
through a fixed sequence of calls.  Each drawing call is mirrored by an
operation on `PdfState` that appends a layout element to the current page,
snapshotting the drawing state (colors, font, line width) the call would
use.  The text of each `pdf.cell`/`pdf.text` call is kept as the f-string
that produced it: a list of literal and formatted-value chunks.  The layout
cursor moved by `pdf.ln` and by `ln=True` cells affects only positions,
which no claim mentions; `ln` is therefore modelled as the identity on the
element list (the `ln=True` flag of a cell is still recorded). -/

/-- An RGB color as passed to `set_fill_color` / `set_draw_color` /
`set_text_color`. -/
structure RGB where
  r : ℕ
  g : ℕ
  b : ℕ
deriving DecidableEq

/-- A font selection as passed to `set_font`. -/
structure Font where
  family : String
  style : String
  size : ℚ
deriving DecidableEq

/-- One piece of an f-string: a literal, a `:,.0f`-formatted currency value,
or a `:.2f`-formatted percentage value. -/
inductive Chunk where
  | lit (s : String)
  | cur (v : ℚ)
  | pct (v : ℚ)
deriving DecidableEq

/-- The string a chunk renders to. -/
def Chunk.render : Chunk → String
  | .lit s => s
  | .cur v => fmtComma0 v
  | .pct v => fmtTwoDec v

/-- A layout element of the generated document. -/
inductive Elem where
  | rect (x y w h : ℚ) (style : String) (fillC drawC : RGB) (lineW : ℚ)
  | text (x y : ℚ) (chunks : List Chunk) (font : Font) (textC : RGB)
  | cell (w h : ℚ) (chunks : List Chunk) (border fill : Bool)
      (fillC textC : RGB) (font : Font) (align : String) (lnAfter : Bool)
  | img (name : String) (x y w : ℚ)
deriving DecidableEq

/-- The state of the `FPDF` object while the document is being built. -/
structure PdfState where
  w : ℚ
  h : ℚ
  fillC : RGB
  drawC : RGB
  textC : RGB
  lineW : ℚ
  font : Font
  done : List (List Elem)
  cur : List Elem
  opened : Bool

/-- Mirrors `FPDF(format="letter", unit="pt")` (source line 192): a letter page is
612 x 792 pt; all colors default to black, the default line width is
0.2 mm = 0.567 pt, and no page is open yet. -/
def FPDF_letter : PdfState :=
  { w := 612, h := 792, fillC := ⟨0, 0, 0⟩, drawC := ⟨0, 0, 0⟩,
    textC := ⟨0, 0, 0⟩, lineW := 567/1000, font := ⟨"", "", 12⟩,
    done := [], cur := [], opened := false }

/-- Append an element to the current page. -/
def emit (s : PdfState) (e : Elem) : PdfState := { s with cur := s.cur ++ [e] }

/-- Mirrors `pdf.set_fill_color(r, g, b)`. -/
def set_fill_color (s : PdfState) (r g b : ℕ) : PdfState := { s with fillC := ⟨r, g, b⟩ }

/-- Mirrors `pdf.set_draw_color(r, g, b)`. -/
def set_draw_color (s : PdfState) (r g b : ℕ) : PdfState := { s with drawC := ⟨r, g, b⟩ }

/-- Mirrors `pdf.set_text_color(r, g, b)`. -/
def set_text_color (s : PdfState) (r g b : ℕ) : PdfState := { s with textC := ⟨r, g, b⟩ }

/-- Mirrors `pdf.set_line_width(w)`. -/
def set_line_width (s : PdfState) (w : ℚ) : PdfState := { s with lineW := w }

/-- Mirrors `pdf.set_font(family, style, size)`. -/
def set_font (s : PdfState) (fam sty : String) (size : ℚ) : PdfState :=
  { s with font := ⟨fam, sty, size⟩ }

/-- Mirrors `pdf.add_page()`: close the current page (if one is open) and start a
fresh one. -/
def add_page (s : PdfState) : PdfState :=
  if s.opened then { s with done := s.done ++ [s.cur], cur := [], opened := true }
  else { s with opened := true }

/-- Mirrors `pdf.rect(x, y, w, h, style)`. -/
def rect (s : PdfState) (x y w h : ℚ) (style : String) : PdfState :=
  emit s (.rect x y w h style s.fillC s.drawC s.lineW)

/-- Mirrors `pdf.text(x, y, txt)`. -/
def text (s : PdfState) (x y : ℚ) (chunks : List Chunk) : PdfState :=
  emit s (.text x y chunks s.font s.textC)

/-- Mirrors `pdf.cell(w, h, txt, border, fill, align, ln)`. -/
def cell (s : PdfState) (w h : ℚ) (chunks : List Chunk) (border fill : Bool)
    (align : String) (lnAfter : Bool) : PdfState :=
  emit s (.cell w h chunks border fill s.fillC s.textC s.font align lnAfter)

/-- Mirrors `pdf.image(name, x, y, w)`. -/
def image (s : PdfState) (name : String) (x y w : ℚ) : PdfState :=
  emit s (.img name x y w)

/-- Mirrors `pdf.ln(h)`: moves the layout cursor only; no element is emitted. -/
def ln (s : PdfState) (h : ℚ) : PdfState :=
  let _ := h
  s

/-- Mirrors `pdf.output(dest="S")`: the finished page list. -/
def output (s : PdfState) : List (List Elem) :=
  s.done ++ (if s.opened then [s.cur] else [])

/-- The `page_setup` helper (source lines 143-151): fill the page black,
then draw a white 2 pt border inset by a 30 pt margin. -/
def page_setup (pdf : PdfState) : PdfState :=
  let pdf := set_fill_color pdf 0 0 0
  let pdf := rect pdf 0 0 pdf.w pdf.h "F"
  let margin : ℚ := 30
  let pdf := set_line_width pdf 2
  let pdf := set_draw_color pdf 255 255 255
  rect pdf margin margin (pdf.w - 2*margin) (pdf.h - 2*margin) "D"

/-- The document built by `create_pdf_with_charts` (source lines 192-282),
as a function of the inputs and of the two temporary PNG file names the
chart step produced.  Every `pdf.…` call of the source appears here in
order with its literal arguments. -/
def build_document (i : Inputs) (tmp_bar_name tmp_pie_name : String) :
    List (List Elem) :=
  let pdf := FPDF_letter
  -- PAGE 1
  let pdf := add_page pdf
  let pdf := page_setup pdf
  -- logo placeholder (lines 199-205)
  let logo_w : ℚ := 100
  let logo_h : ℚ := 50
  let logo_x : ℚ := 20
  let logo_y : ℚ := 20
  let pdf := set_fill_color pdf 255 255 255
  let pdf := rect pdf logo_x logo_y logo_w logo_h "F"
  let pdf := set_font pdf "Helvetica" "B" 16
  let pdf := set_text_color pdf 0 0 0
  let pdf := text pdf (logo_x + logo_w/2 - 15) (logo_y + logo_h/2 + 5) [.lit "LOGO"]
  -- contact info (lines 208-213)
  let contact_x := logo_x + logo_w + 20
  let contact_y := logo_y + 15
  let pdf := set_font pdf "Helvetica" "" 11
  let pdf := set_text_color pdf 255 255 255
  let pdf := text pdf contact_x contact_y [.lit "Contact: 123-456-7890"]
  let pdf := text pdf contact_x (contact_y + 15) [.lit "Email: dummy@example.com"]
  -- report title (lines 216-218)
  let pdf := set_font pdf "Helvetica" "B" 18
  let pdf := set_text_color pdf 255 255 255
  let pdf := text pdf logo_x (logo_y + logo_h + 40) [.lit "Real Estate ROI Report"]
  let pdf := ln pdf (logo_h + 60)
  -- input parameters (lines 224-230)
  let pdf := set_font pdf "Helvetica" "" 12
  let pdf := set_text_color pdf 255 255 255
  let pdf := cell pdf 0 16 [.lit "1. Input Parameters:"] false false "" true
  let pdf := set_font pdf "Helvetica" "" 11
  let pdf := cell pdf 0 14 [.lit "   - Purchase Price:        $", .cur i.purchase_price] false false "" true
  let pdf := cell pdf 0 14 [.lit "   - Annual Rent Yield (%):  ", .pct i.rent_pct, .lit "%"] false false "" true
  let pdf := ln pdf 8
  -- computed outputs (lines 233-240)
  let pdf := set_font pdf "Helvetica" "" 12
  let pdf := cell pdf 0 16 [.lit "2. Computed Outputs:"] false false "" true
  let pdf := set_font pdf "Helvetica" "" 11
  let pdf := cell pdf 0 14 [.lit "   - Annual Rent (USD):      $", .cur (annual_rent i)] false false "" true
  let pdf := cell pdf 0 14 [.lit "   - Annual ROI (%):         ", .pct (annual_roi_pct i), .lit "%"] false false "" true
  let pdf := cell pdf 0 14 [.lit "   - Quarterly Rent (USD):   $", .cur (quarterly_rent i)] false false "" true
  let pdf := cell pdf 0 14 [.lit "   - Quarterly ROI (%):      ", .pct (quarterly_roi_pct i), .lit "%"] false false "" true
  let pdf := ln pdf 10
  -- quarterly table (lines 243-264)
  let pdf := set_font pdf "Helvetica" "" 12
  let pdf := cell pdf 0 16 [.lit "3. Quarterly Rent Breakdown:"] false false "" true
  let pdf := set_font pdf "Helvetica" "" 11
  let col_width : ℚ := 150
  let row_height : ℚ := 18
  let pdf := set_fill_color pdf 200 200 200
  let pdf := set_text_color pdf 0 0 0
  let pdf := cell pdf col_width row_height [.lit "Quarter"] true true "C" false
  let pdf := cell pdf col_width row_height [.lit "Rent (USD)"] true true "C" false
  let pdf := ln pdf row_height
  let pdf := set_fill_color pdf 0 0 0
  let pdf := set_text_color pdf 255 255 255
  let pdf := (df_quarters i).foldl (fun pdf row =>
      let pdf := cell pdf col_width row_height [.lit row.1] true true "C" false
      let pdf := cell pdf col_width row_height [.lit "$", .cur row.2] true true "C" false
      ln pdf row_height) pdf
  -- PAGE 2 (lines 267-279)
  let pdf := add_page pdf
  let pdf := page_setup pdf
  let pdf := set_font pdf "Helvetica" "B" 14
  let pdf := set_text_color pdf 255 255 255
  let pdf := text pdf 20 40 [.lit "4. Charts:"]
  let pdf := image pdf tmp_bar_name 20 60 500
  let pdf := image pdf tmp_pie_name 150 380 300
  output pdf

/-!  Extraction helpers over the document model. -/

/-- Whether an element is an embedded image. -/
def isImg : Elem → Bool
  | .img _ _ _ _ => true
  | _ => false

/-- The images embedded in one page. -/
def pageImages (pg : List Elem) : List Elem := pg.filter isImg

/-- All images embedded in a document. -/
def docImages (d : List (List Elem)) : List Elem := d.flatten.filter isImg

/-- The text content (chunk list) of a text or cell element. -/
def elemChunks : Elem → Option (List Chunk)
  | .text _ _ cl _ _ => some cl
  | .cell _ _ cl _ _ _ _ _ _ _ => some cl
  | _ => none

/-- All text contents of a document, in order. -/
def docChunkLists (d : List (List Elem)) : List (List Chunk) :=
  d.flatten.filterMap elemChunks

/-- Whether an element is a bordered, filled table cell shaded with the
header gray `(200, 200, 200)` (source lines 250-253). -/
def isHeaderCell : Elem → Bool
  | .cell _ _ _ true true fc _ _ _ _ => fc = ⟨200, 200, 200⟩
  | _ => false

/-- Whether an element is a bordered, filled table cell with the black data
row fill `(0, 0, 0)` (source lines 257-264). -/
def isDataCell : Elem → Bool
  | .cell _ _ _ true true fc _ _ _ _ => fc = ⟨0, 0, 0⟩
  | _ => false

/-- The shaded header cells of the table of a document. -/
def headerCells (d : List (List Elem)) : List Elem := d.flatten.filter isHeaderCell

/-- The data cells of the table of a document (two per table row). -/
def dataCells (d : List (List Elem)) : List Elem := d.flatten.filter isDataCell

/-!  The resource behaviour of one `create_pdf_with_charts` call.

The source acquires two temporary PNG files with
`tempfile.NamedTemporaryFile(delete=False)` (lines 166 and 187) and removes
them only after `pdf.output` has succeeded, inside one
`try: os.remove(bar); os.remove(pie) except OSError: pass` block
(lines 287-291).  `create_pdf_with_charts` below runs that call with one
boolean failure-injection point per fallible operation, in source order,
and returns the outcome together with the list of temporary files still
existing when the call ends.  The model file names stand for the random
names `tempfile` generates. -/

/-- Failure-injection points of one generation call, in source order:
`fig_bar.savefig` (line 167), `fig_pie.savefig` (line 188),
`pdf.image(tmp_bar…)` (line 276), `pdf.image(tmp_pie…)` (line 279),
`pdf.output` (line 282), `os.remove(tmp_bar.name)` (line 288) and
`os.remove(tmp_pie.name)` (line 289), the last two raising `OSError`. -/
structure GenEnv where
  savefig_bar_fails : Bool
  savefig_pie_fails : Bool
  image_bar_fails : Bool
  image_pie_fails : Bool
  output_fails : Bool
  remove_bar_fails : Bool
  remove_pie_fails : Bool
deriving DecidableEq

/-- The run with no injected failure. -/
def cleanEnv : GenEnv := ⟨false, false, false, false, false, false, false⟩

/-- Model name of the temporary bar-chart PNG (line 166). -/
def tmpBarName : String := "tmp_bar.png"

/-- Model name of the temporary pie-chart PNG (line 187). -/
def tmpPieName : String := "tmp_pie.png"

/-- One run of `create_pdf_with_charts` (source lines 127-293): the result
(`Except` models a raised Python exception; the serialized byte buffer is
modelled by the document it encodes) paired with the temporary PNG files
still existing on disk when the call ends. -/
def create_pdf_with_charts (i : Inputs) (env : GenEnv) :
    Except String (List (List Elem)) × List String :=
  -- line 166: tmp_bar is created on disk
  let files := [tmpBarName]
  if env.savefig_bar_fails then (.error "fig_bar.savefig", files) else
  -- line 187: tmp_pie is created on disk
  let files := files ++ [tmpPieName]
  if env.savefig_pie_fails then (.error "fig_pie.savefig", files) else
  if env.image_bar_fails then (.error "pdf.image tmp_bar", files) else
  if env.image_pie_fails then (.error "pdf.image tmp_pie", files) else
  if env.output_fails then (.error "pdf.output", files) else
  let doc := build_document i tmpBarName tmpPieName
  -- lines 287-291: try os.remove both; an OSError is suppressed, and a
  -- failure on tmp_bar skips the removal of tmp_pie
  if env.remove_bar_fails then (.ok doc, [tmpBarName, tmpPieName])
  else if env.remove_pie_fails then (.ok doc, [tmpPieName])
  else (.ok doc, [])

/-!  Format-shape predicates over f-string chunk lists, used to state that
every currency value rendered into the document is preceded by a literal
`$` and every percentage value is followed by a literal `%`. -/

/-- Whether a literal ends with the dollar sign. -/
def endsDollar (s : String) : Bool := s.data.getLast? = some '$'

/-- Whether a literal starts with the percent sign. -/
def startsPercent (s : String) : Bool := s.data.head? = some '%'

/-- Every currency chunk of the list is immediately preceded by a literal
ending in `$`. -/
def curOk : List Chunk → Bool
  | [] => true
  | .lit s :: .cur _ :: rest => endsDollar s && curOk rest
  | .cur _ :: _ => false
  | _ :: rest => curOk rest

/-- Every percentage chunk of the list is immediately followed by a literal
starting with `%`. -/
def pctOk : List Chunk → Bool
  | [] => true
  | [.pct _] => false
  | .pct _ :: .lit s :: rest => startsPercent s && pctOk (.lit s :: rest)
  | .pct _ :: .cur _ :: _ => false
  | .pct _ :: .pct _ :: _ => false
  | _ :: rest => pctOk rest

/-!  Helper lemmas about the digit strings and the thousands separator. -/

/-- The ten decimal digit characters. -/
def decDigits : List Char := ['0', '1', '2', '3', '4', '5', '6', '7', '8', '9']

theorem digitChar_mem (d : ℕ) : digitChar d ∈ decDigits := by
  unfold digitChar
  split_ifs <;> decide

theorem natDigitsAux_zero (fuel : ℕ) : natDigitsAux fuel 0 = [] := by
  cases fuel <;> rfl

theorem natDigitsAux_mem : ∀ fuel n c, c ∈ natDigitsAux fuel n → c ∈ decDigits
  | 0, _, c => by simp [natDigitsAux]
  | _ + 1, 0, c => by simp [natDigitsAux]
  | fuel + 1, n + 1, c => by
    intro hc
    simp only [natDigitsAux, List.mem_cons] at hc
    rcases hc with rfl | hc
    · exact digitChar_mem _
    · exact natDigitsAux_mem fuel _ c hc

theorem mem_natStr (n : ℕ) (c : Char) (hc : c ∈ (natStr n).data) : c ∈ decDigits := by
  unfold natStr at hc
  split at hc
  · have h0 : ("0" : String).data = ['0'] := rfl
    rw [h0] at hc
    simp only [List.mem_singleton] at hc
    subst hc
    decide
  · have hmk : (String.mk (natDigitsAux n n).reverse).data = (natDigitsAux n n).reverse := rfl
    rw [hmk, List.mem_reverse] at hc
    exact natDigitsAux_mem n n c hc

theorem natStr_no_comma (n : ℕ) : ',' ∉ (natStr n).data := by
  intro h
  have := mem_natStr n ',' h
  simp [decDigits] at this

theorem natStr_no_dot (n : ℕ) : '.' ∉ (natStr n).data := by
  intro h
  have := mem_natStr n '.' h
  simp [decDigits] at this

theorem mem_commaGroupAux : ∀ l c, c ∈ commaGroupAux l → c ∈ l ∨ c = ','
  | a :: b :: c' :: d :: rest, c => by
    intro hc
    simp only [commaGroupAux, List.mem_cons] at hc
    rcases hc with rfl | rfl | rfl | rfl | hc
    · simp
    · simp
    · simp
    · right; rfl
    · rcases mem_commaGroupAux (d :: rest) c hc with h | h
      · left; simp only [List.mem_cons] at h ⊢; tauto
      · right; exact h
  | [], c => by intro hc; exact absurd hc (by simp [commaGroupAux])
  | [a], c => by intro hc; left; exact hc
  | [a, b], c => by intro hc; left; exact hc
  | [a, b, c'], c => by intro hc; left; exact hc

theorem commaGroupAux_filter :
    ∀ l : List Char,
      (commaGroupAux l).filter (fun c => c != ',') = l.filter (fun c => c != ',')
  | a :: b :: c :: d :: rest => by
    have ih := commaGroupAux_filter (d :: rest)
    simp [commaGroupAux, List.filter_cons, ih]
  | [] => rfl
  | [a] => rfl
  | [a, b] => rfl
  | [a, b, c] => rfl

theorem fmtComma0_no_dot (q : ℚ) : '.' ∉ (fmtComma0 q).data := by
  intro hc
  simp only [fmtComma0] at hc
  rw [String.data_append] at hc
  rcases List.mem_append.mp hc with h | h
  · split at h
    · exact absurd h (by decide)
    · exact absurd h (by decide)
  · have hmk : (String.mk (commaGroupAux (natStr (roundHalfEven q).natAbs).data.reverse).reverse).data
        = (commaGroupAux (natStr (roundHalfEven q).natAbs).data.reverse).reverse := rfl
    rw [hmk, List.mem_reverse] at h
    rcases mem_commaGroupAux _ _ h with h2 | h2
    · rw [List.mem_reverse] at h2
      exact natStr_no_dot _ h2
    · exact absurd h2 (by decide)

theorem fmtComma0_filter (q : ℚ) :
    (fmtComma0 q).data.filter (fun c => c != ',') =
      ((if roundHalfEven q < 0 then "-" else "") ++ natStr (roundHalfEven q).natAbs).data := by
  simp only [fmtComma0]
  rw [String.data_append, String.data_append, List.filter_append]
  have hdigits : (natStr (roundHalfEven q).natAbs).data.filter (fun c => c != ',') =
      (natStr (roundHalfEven q).natAbs).data := by
    apply List.filter_eq_self.mpr
    intro a ha
    have hne : a ≠ ',' := fun h => natStr_no_comma _ (h ▸ ha)
    simpa using hne
  have hmk : (String.mk (commaGroupAux (natStr (roundHalfEven q).natAbs).data.reverse).reverse).data
      = (commaGroupAux (natStr (roundHalfEven q).natAbs).data.reverse).reverse := rfl
  rw [hmk, List.filter_reverse, commaGroupAux_filter, List.filter_reverse, hdigits,
    List.reverse_reverse]
  congr 1
  split <;> rfl

theorem natStr_length_one (k : ℕ) (h : k < 10) : (natStr k).length = 1 := by
  unfold natStr
  split
  · rfl
  · rename_i hk
    obtain ⟨m, rfl⟩ : ∃ m, k = m + 1 := ⟨k - 1, by omega⟩
    have heq : natDigitsAux (m + 1) (m + 1) = [digitChar ((m + 1) % 10)] := by
      simp only [natDigitsAux]
      rw [Nat.div_eq_of_lt h, natDigitsAux_zero]
    rw [heq]
    rfl

theorem sign_natStr_no_dot (n : ℤ) (m : ℕ) :
    '.' ∉ ((if n < 0 then "-" else "") ++ natStr m).data := by
  intro hc
  rw [String.data_append] at hc
  rcases List.mem_append.mp hc with h | h
  · split at h
    · exact absurd h (by decide)
    · exact absurd h (by decide)
  · exact natStr_no_dot m h

/-- The plain layout variant as the spec describes it (written from the
wording of the spec, for comparison with what the code builds): a single page with
no embedded chart image.  The spec additionally requires a title, the two
text blocks, the table and a closing muted note on that single page; the
two conjuncts here are already enough to separate it from what the code
produces. -/
def plainVariantSpec (d : List (List Elem)) : Prop :=
  d.length = 1 ∧ docImages d = []

/-- Claim C1: for every input, `annual_rent = purchase_price * rent_yield_pct
/ 100`, `quarterly_rent = annual_rent / 4`, `annual_roi_pct =
rent_yield_pct` exactly, and `quarterly_roi_pct = annual_roi_pct / 4`; and
at `purchase_price = 200000`, `rent_yield_pct = 6` the metrics are
`annual_rent = 12000`, `quarterly_rent = 3000`, and they render as `6.00%`
and `1.50%`. -/
theorem claim_C1 (i : Inputs) :
    annual_rent i = i.purchase_price * i.rent_pct / 100
    ∧ quarterly_rent i = annual_rent i / 4
    ∧ annual_roi_pct i = i.rent_pct
    ∧ quarterly_roi_pct i = annual_roi_pct i / 4
    ∧ annual_rent ⟨200000, 6⟩ = 12000
    ∧ quarterly_rent ⟨200000, 6⟩ = 3000
    ∧ fmtTwoDec (annual_roi_pct ⟨200000, 6⟩) ++ "%" = "6.00%"
    ∧ fmtTwoDec (quarterly_roi_pct ⟨200000, 6⟩) ++ "%" = "1.50%" := by
  refine ⟨?_, rfl, rfl, rfl, ?_, ?_, ?_, ?_⟩
  · rw [annual_rent, rent_decimal, mul_div_assoc]
  · norm_num [annual_rent, rent_decimal]
  · norm_num [quarterly_rent, annual_rent, rent_decimal]
  · have h6 : annual_roi_pct ⟨200000, 6⟩ = 6 := rfl
    have h : roundHalfEven ((6 : ℚ) * 100) = 600 := by
      simp only [roundHalfEven]; norm_num
    rw [h6]
    simp only [fmtTwoDec, h]
    decide
  · have h32 : quarterly_roi_pct ⟨200000, 6⟩ = 3 / 2 := by
      norm_num [quarterly_roi_pct, annual_roi_pct]
    have h : roundHalfEven ((3 / 2 : ℚ) * 100) = 150 := by
      simp only [roundHalfEven]; norm_num
    rw [h32]
    simp only [fmtTwoDec, h]
    decide

/-- Claim C2 (counterexample): the document the generator builds is not the
plain variant the spec describes — it has two pages and embedded charts, so
no plain (single-page, chart-free) output is supported. -/
theorem claim_C2_counterexample :
    ¬ plainVariantSpec (build_document ⟨200000, 6⟩ tmpBarName tmpPieName) := by
  intro h
  exact absurd h.1 (by decide)

/-- Claim C2 (amended): the generator supports no plain variant; its only
output is the dark-themed two-page document with two embedded chart
images.  The other ingredients of the plain variant are present — an "Input
Parameters" block, a "Computed Outputs" block, and a bordered 2-column
table with a shaded header row (2 header cells) and 4 data rows (8 data
cells) — but the page count is 2 and charts are always embedded. -/
theorem claim_C2 (i : Inputs) (bar pie : String) :
    (build_document i bar pie).length = 2
    ∧ (docImages (build_document i bar pie)).length = 2
    ∧ (headerCells (build_document i bar pie)).length = 2
    ∧ (dataCells (build_document i bar pie)).length = 8
    ∧ [Chunk.lit "1. Input Parameters:"] ∈ docChunkLists (build_document i bar pie)
    ∧ [Chunk.lit "2. Computed Outputs:"] ∈ docChunkLists (build_document i bar pie) := by
  refine ⟨?_, ?_, ?_, ?_, ?_, ?_⟩ <;>
    simp [build_document, FPDF_letter, page_setup, add_page, set_fill_color, set_draw_color,
      set_text_color, set_line_width, set_font, rect, text, cell, image, ln, emit, output,
      df_quarters, quarters, quarterly_values, docImages, isImg, headerCells, isHeaderCell,
      dataCells, isDataCell, docChunkLists, elemChunks]

/-- Claim C5: with `purchase_price = 0` and any rent yield, the computation
raises no error (the full generation run succeeds), `annual_rent = 0`, and
the zero-valued pie slices render with empty percentage labels. -/
theorem claim_C5 (r : ℚ) :
    annual_rent ⟨0, r⟩ = 0
    ∧ pieValues ⟨0, r⟩ = [0, 0]
    ∧ pieLabels (pieValues ⟨0, r⟩) = ["", ""]
    ∧ (create_pdf_with_charts ⟨0, r⟩ cleanEnv).1 =
        .ok (build_document ⟨0, r⟩ tmpBarName tmpPieName) := by
  have har : annual_rent ⟨0, r⟩ = 0 := by simp [annual_rent]
  have hvals : pieValues ⟨0, r⟩ = [0, 0] := by simp [pieValues, har]
  refine ⟨har, hvals, ?_, rfl⟩
  rw [hvals]
  simp [pieLabels, pieShare, autopct]

/-- Claim C6: for every input, the generated document has exactly two
pages; the first page embeds no image and the second embeds exactly the
bar chart at `(x=20, y=60, w=500)` followed by the pie chart at
`(x=150, y=380, w=300)`. -/
theorem claim_C6 (i : Inputs) (bar pie : String) :
    (build_document i bar pie).length = 2
    ∧ (build_document i bar pie).map pageImages =
        [[], [.img bar 20 60 500, .img pie 150 380 300]] := by
  constructor <;>
    simp [build_document, FPDF_letter, page_setup, add_page, set_fill_color, set_draw_color,
      set_text_color, set_line_width, set_font, rect, text, cell, image, ln, emit, output,
      df_quarters, quarters, quarterly_values, pageImages, isImg]

/-- Claim C7: for a 2-category pie input, a slice whose share is zero gets
the empty percentage label (never "0.0%"), and a slice with positive share
gets its share rounded to one decimal place followed by `%`; a zero-valued
first slice in particular gets the empty label. -/
theorem claim_C7 (a b : ℚ) :
    ((pieLabels [a, b])[0]? = some (autopct (pieShare a (a + b)))
      ∧ (pieLabels [a, b])[1]? = some (autopct (pieShare b (a + b))))
    ∧ (pieShare a (a + b) = 0 → (pieLabels [a, b])[0]? = some "")
    ∧ (0 < pieShare a (a + b) → (pieLabels [a, b])[0]? = some (fmtOneDec (pieShare a (a + b)) ++ "%"))
    ∧ (pieShare b (a + b) = 0 → (pieLabels [a, b])[1]? = some "")
    ∧ (0 < pieShare b (a + b) → (pieLabels [a, b])[1]? = some (fmtOneDec (pieShare b (a + b)) ++ "%"))
    ∧ (a = 0 → (pieLabels [a, b])[0]? = some "")
    ∧ "" ≠ "0.0%" := by
  have hsum : ([a, b] : List ℚ).sum = a + b := by simp
  have h0 : (pieLabels [a, b])[0]? = some (autopct (pieShare a (a + b))) := by
    simp [pieLabels, hsum]
  have h1 : (pieLabels [a, b])[1]? = some (autopct (pieShare b (a + b))) := by
    simp [pieLabels, hsum]
  refine ⟨⟨h0, h1⟩, ?_, ?_, ?_, ?_, ?_, by decide⟩
  · intro hz
    rw [h0, hz]
    simp [autopct]
  · intro hpos
    rw [h0]
    simp [autopct, hpos]
  · intro hz
    rw [h1, hz]
    simp [autopct]
  · intro hpos
    rw [h1]
    simp [autopct, hpos]
  · intro ha
    have hz : pieShare a (a + b) = 0 := by
      subst ha
      simp [pieShare]
    rw [h0, hz]
    simp [autopct]

/-- Claim C7 witness: at the concrete slices `(0, 5)` the zero-valued first
slice renders with the empty percentage label. -/
theorem claim_C7_witness : (pieLabels [(0 : ℚ), 5])[0]? = some "" :=
  (claim_C7 0 5).2.2.2.2.2.1 rfl

/-- Claim C8: for every input the quarterly breakdown is exactly the four
rows `Q1`, `Q2`, `Q3`, `Q4` in order, each carrying `quarterly_rent`. -/
theorem claim_C8 (i : Inputs) :
    df_quarters i = [("Q1", quarterly_rent i), ("Q2", quarterly_rent i),
      ("Q3", quarterly_rent i), ("Q4", quarterly_rent i)] := rfl

/-- Claim C9: in every text block of the document, a currency chunk is
immediately preceded by a literal ending in `$` and a percentage chunk is
immediately followed by a literal starting with `%`; a rendered currency
value contains no decimal point and, with its thousands separators
removed, is exactly the (optionally signed) digit string of the rounded
value; a rendered percentage value is an integer part, a decimal point and
exactly two decimal digits. -/
theorem claim_C9 (i : Inputs) (bar pie : String) :
    (∀ cl ∈ docChunkLists (build_document i bar pie), curOk cl = true ∧ pctOk cl = true)
    ∧ (∀ v : ℚ, (Chunk.cur v).render = fmtComma0 v ∧ '.' ∉ (fmtComma0 v).data ∧
        (fmtComma0 v).data.filter (fun c => c != ',') =
          ((if roundHalfEven v < 0 then "-" else "") ++ natStr (roundHalfEven v).natAbs).data)
    ∧ (∀ q : ℚ, ∃ intPart tenths hundredths : String,
        (Chunk.pct q).render = intPart ++ "." ++ tenths ++ hundredths
        ∧ tenths.length = 1 ∧ hundredths.length = 1
        ∧ '.' ∉ intPart.data ∧ '.' ∉ tenths.data ∧ '.' ∉ hundredths.data) := by
  refine ⟨?_, ?_, ?_⟩
  · intro cl hcl
    simp [build_document, FPDF_letter, page_setup, add_page, set_fill_color, set_draw_color,
      set_text_color, set_line_width, set_font, rect, text, cell, image, ln, emit, output,
      df_quarters, quarters, quarterly_values, docChunkLists, elemChunks] at hcl
    rcases hcl with rfl | rfl | rfl | rfl | rfl | rfl | rfl | rfl | rfl | rfl | rfl | rfl |
      rfl | rfl | rfl | rfl | rfl | rfl | rfl | rfl | rfl | rfl | rfl | rfl <;>
      exact ⟨rfl, rfl⟩
  · intro v
    exact ⟨rfl, fmtComma0_no_dot v, fmtComma0_filter v⟩
  · intro q
    refine ⟨(if roundHalfEven (q * 100) < 0 then "-" else "") ++
        natStr ((roundHalfEven (q * 100)).natAbs / 100),
      natStr ((roundHalfEven (q * 100)).natAbs % 100 / 10),
      natStr ((roundHalfEven (q * 100)).natAbs % 10), ?_, ?_, ?_, ?_, ?_, ?_⟩
    · simp [Chunk.render, fmtTwoDec, String.append_assoc]
    · exact natStr_length_one _ (by omega)
    · exact natStr_length_one _ (Nat.mod_lt _ (by norm_num))
    · exact sign_natStr_no_dot _ _
    · exact natStr_no_dot _
    · exact natStr_no_dot _

/-- Claim C9 witness: the theorem applied at the concrete input
`(200000, 6)` and the concrete table-header block of that document. -/
theorem claim_C9_witness :
    curOk [Chunk.lit "Quarter"] = true ∧ pctOk [Chunk.lit "Quarter"] = true :=
  (claim_C9 ⟨200000, 6⟩ "bar.png" "pie.png").1 [Chunk.lit "Quarter"] (by
    simp [build_document, FPDF_letter, page_setup, add_page, set_fill_color, set_draw_color,
      set_text_color, set_line_width, set_font, rect, text, cell, image, ln, emit, output,
      df_quarters, quarters, quarterly_values, docChunkLists, elemChunks])

/-- Claim C4 (counterexample): when embedding the bar chart into the PDF
fails, the call ends with both temporary PNG files still on disk — the
transient resources are not released on that exit path. -/
theorem claim_C4_counterexample :
    (create_pdf_with_charts ⟨200000, 6⟩ ⟨false, false, true, false, false, false, false⟩).2 =
      [tmpBarName, tmpPieName]
    ∧ (create_pdf_with_charts ⟨200000, 6⟩ ⟨false, false, true, false, false, false, false⟩).1 =
        .error "pdf.image tmp_bar" := by
  exact ⟨rfl, rfl⟩

/-- Claim C4 (amended): the temporary PNG files are removed only on the
successful path — a run in which chart generation, image embedding,
serialization and both removals succeed returns the document and leaves no
temporary file; a run that fails before serialization (or whose removals
raise `OSError`) leaves the files behind. -/
theorem claim_C4 (i : Inputs) :
    create_pdf_with_charts i cleanEnv = (.ok (build_document i tmpBarName tmpPieName), []) := rfl

/-- Claim C10: an `OSError` raised while removing the temporary PNGs after
serialization is suppressed, and the generator still returns the completed
PDF buffer. -/
theorem claim_C10 (i : Inputs) (rb rp : Bool) :
    (create_pdf_with_charts i ⟨false, false, false, false, false, rb, rp⟩).1 =
      .ok (build_document i tmpBarName tmpPieName) := by
  cases rb <;> cases rp <;> rfl

end RoiApp
